import Mathlib

/-!
Verification of the mnemosyne activity-sampler core (Go sources under
`internal/buffer`, `internal/monitor`, `internal/win32`, `internal/storage`
and `cmd` main wiring) against its natural-language specification.

Conventions of the shallow embedding:
* Go strings are Lean `String`; byte slices and UTF-16 buffers are `List Nat`.
* Machine integers are `Nat`/`Int`; `uint32` arithmetic is explicit `% 2^32`.
* The Go `float32` field `InputIntensity` and score arithmetic are modelled
  over `ℚ` (exact arithmetic; all score values exercised are small rationals).
* Wall-clock times (`time.Time`, `time.Duration`) are `Nat` milliseconds,
  passed explicitly as a `now` argument to each stateful operation.
* The SQL engine and Redis server are oracles (`DbBehavior`, publish oracle)
  deciding which calls fail; the committed rows / published events are
  returned explicitly so frame effects can be stated.
-/

namespace Mnemosyne

/-- Modulus of Go `uint32` arithmetic. -/
def U32 : Nat := 2 ^ 32

/-- A value bound to a SQL parameter or stored in a Redis field
(`database/sql` driver values as used by this writer). -/
inductive SqlValue where
  | str  (s : String)
  | int  (i : Int)
  | real (q : ℚ)
  | bytes (b : List Nat)
deriving DecidableEq, Repr

/-- `buffer.LogEntry` (buffer.go lines 15-25): a single activity log entry.
`InputIntensity` (Go `float32`) is modelled as `ℚ`; `ScreenshotData` as a
byte list. -/
structure LogEntry where
  sessionUUID    : String
  unixTime       : Int
  processName    : String
  windowTitle    : String
  windowHandle   : Int
  inputIdleMs    : Int
  inputIntensity : ℚ
  screenshotPath : String
  screenshotData : List Nat
deriving DecidableEq, Repr

/-- `buffer.BufferConfig` (buffer.go lines 28-32); durations in ms. -/
structure BufferConfig where
  capacity      : Nat
  flushTimeoutMs : Nat
  idleThresholdMs : Nat
deriving DecidableEq, Repr

/-- The observable state of `buffer.Buffer` (buffer.go lines 45-53):
the entry slice, the `lastFlush` time, and the auto-flush timer modelled by
the time it was (re)started plus whether it is running. -/
structure BufferState where
  entries    : List LogEntry
  config     : BufferConfig
  lastFlush  : Nat
  timerStart : Nat
  timerRunning : Bool
deriving DecidableEq, Repr

/-- `buffer.New` (buffer.go lines 56-69): empty entries, `lastFlush := now`,
and the auto-flush timer started. -/
def bufNew (config : BufferConfig) (now : Nat) : BufferState :=
  { entries := [], config := config, lastFlush := now,
    timerStart := now, timerRunning := true }

/-- `Buffer.Add` (buffer.go lines 92-105): appends unconditionally and
returns `true` iff the post-append count reaches the configured capacity. -/
def bufAdd (b : BufferState) (e : LogEntry) : BufferState × Bool :=
  let b2 := { b with entries := b.entries ++ [e] }
  (b2, decide (b2.entries.length ≥ b.config.capacity))

/-- `Buffer.Len` (buffer.go lines 108-112). -/
def bufLen (b : BufferState) : Nat := b.entries.length

/-- `Buffer.GetAndClear` (buffer.go lines 309-326): on a non-empty buffer,
atomically takes the entries, re-capacitizes, sets `lastFlush := now` and
resets the auto-flush timer; on an empty buffer it returns `nil` without
touching the timer. -/
def bufGetAndClear (b : BufferState) (now : Nat) : BufferState × List LogEntry :=
  if b.entries.isEmpty then (b, [])
  else
    ({ b with
        entries := []
        lastFlush := now
        timerStart := now
        timerRunning := true }, b.entries)

/-- Oracle describing the SQL engine's reaction to the calls issued by one
flush: whether `Begin`, `Prepare`, the i-th `Exec`, and `Commit` fail. -/
structure DbBehavior where
  beginErr   : Bool
  prepareErr : Bool
  execErr    : Nat → Bool
  commitErr  : Bool

/-- All of the first `n` `Exec` calls succeed under `db`. -/
def execAllOk (db : DbBehavior) (n : Nat) : Bool :=
  (List.range n).all fun i => ! db.execErr i

/-- Column list of the `INSERT INTO raw_events` statement prepared by both
`Buffer.Flush` (buffer.go lines 149-153) and `Buffer.flushUnsafe`
(buffer.go lines 232-236). -/
def rawEventsInsertColumns : List String :=
  ["session_uuid", "timestamp_utc", "unix_time", "process_name",
   "window_title", "window_hwnd", "input_idle_ms", "input_intensity",
   "screenshot_path"]

/-- The columns bound by `?` placeholders in that statement, in declared
order: the `VALUES` clause fills `timestamp_utc` with `datetime(now)` and
leaves eight `?` placeholders for the remaining columns. -/
def rawEventsPlaceholderColumns : List String :=
  ["session_uuid", "unix_time", "process_name", "window_title",
   "window_hwnd", "input_idle_ms", "input_intensity", "screenshot_path"]

/-- The argument list passed to `stmt.Exec` per entry by `Buffer.Flush`
(buffer.go lines 161-172). Note: the source passes `entry.InputIdleMs`
twice, yielding nine arguments. -/
def flushExecArgs (e : LogEntry) : List SqlValue :=
  [.str e.sessionUUID, .int e.unixTime, .str e.processName,
   .str e.windowTitle, .int e.windowHandle, .int e.inputIdleMs,
   .int e.inputIdleMs, .real e.inputIntensity, .str e.screenshotPath]

/-- The argument list passed to `stmt.Exec` per entry by
`Buffer.flushUnsafe` (buffer.go lines 243-253): eight arguments matching
the eight placeholder columns in declared order — this is exactly the §6.3
field mapping. -/
def flushUnsafeExecArgs (e : LogEntry) : List SqlValue :=
  [.str e.sessionUUID, .int e.unixTime, .str e.processName,
   .str e.windowTitle, .int e.windowHandle, .int e.inputIdleMs,
   .real e.inputIntensity, .str e.screenshotPath]

/-- Outcome of a buffer flush: the buffer afterwards, whether an error was
returned, the rows committed to `raw_events` (each as its bound argument
list), and whether `tx.Rollback` was invoked. -/
structure FlushOutcome where
  buf        : BufferState
  err        : Bool
  committed  : List (List SqlValue)
  rolledBack : Bool
deriving Repr

/-- `Buffer.Flush` (buffer.go lines 134-190). Control flow: empty buffer
returns nil untouched; `Begin` error returns the error (no transaction);
`Prepare` error rolls back and returns; any `Exec` error rolls back and
returns; `Commit` error returns (no explicit rollback in the source); on
success the entries are cleared, `lastFlush := now`, and the auto-flush
timer is reset. On every error path the entry slice is left unchanged. -/
def bufFlush (b : BufferState) (db : DbBehavior) (now : Nat) : FlushOutcome :=
  if b.entries.isEmpty then
    { buf := b, err := false, committed := [], rolledBack := false }
  else if db.beginErr then
    { buf := b, err := true, committed := [], rolledBack := false }
  else if db.prepareErr then
    { buf := b, err := true, committed := [], rolledBack := true }
  else if ! execAllOk db b.entries.length then
    { buf := b, err := true, committed := [], rolledBack := true }
  else if db.commitErr then
    { buf := b, err := true, committed := [], rolledBack := false }
  else
    { buf := { b with
                entries := []
                lastFlush := now
                timerStart := now
                timerRunning := true },
      err := false, committed := b.entries.map flushExecArgs,
      rolledBack := false }

/-- Outcome of `Buffer.ForceFlush`: as `FlushOutcome`, plus whether the
auto-flush timer was stopped. -/
structure ForceFlushOutcome where
  buf        : BufferState
  err        : Bool
  committed  : List (List SqlValue)
  rolledBack : Bool
deriving Repr

/-- `Buffer.ForceFlush` (buffer.go lines 194-218): empty buffer returns nil
untouched; otherwise stops the timer, runs `flushUnsafe` (buffer.go lines
221-265, binding `flushUnsafeExecArgs` per entry), and on success clears
the entries and sets `lastFlush := now` without restarting the timer. -/
def bufForceFlush (b : BufferState) (db : DbBehavior) (now : Nat) : ForceFlushOutcome :=
  if b.entries.isEmpty then
    { buf := b, err := false, committed := [], rolledBack := false }
  else
    let b1 := { b with timerRunning := false }
    if db.beginErr then
      { buf := b1, err := true, committed := [], rolledBack := false }
    else if db.prepareErr then
      { buf := b1, err := true, committed := [], rolledBack := true }
    else if ! execAllOk db b.entries.length then
      { buf := b1, err := true, committed := [], rolledBack := true }
    else if db.commitErr then
      { buf := b1, err := true, committed := [], rolledBack := false }
    else
      { buf := { b1 with entries := [], lastFlush := now },
        err := false, committed := b.entries.map flushUnsafeExecArgs,
        rolledBack := false }

/-- `win32.GetIdleTime` (win32.go lines 177-192) as a function of the two
`uint32` observations `lastInput` (from `GetLastInputInfo`) and `current`
(from `GetTickCount`): when `current < lastInput` the source adds
`0xFFFFFFFF` (with `uint32` wrap), then returns the `uint32` difference
`current - lastInput`. -/
def getIdleTime (lastInput current : Nat) : Nat :=
  let current2 := if current < lastInput then (current + 0xFFFFFFFF) % U32 else current
  (current2 + U32 - lastInput) % U32

/-- The elapsed milliseconds between the two observations under correct
modulo-2^32 wrap-around arithmetic: `(current - lastInput) mod 2^32`. -/
def correctIdleTime (lastInput current : Nat) : Nat :=
  (current + U32 - lastInput) % U32

/-- `syscall.UTF16ToString` as used by `win32.GetWindowText`: truncates at
the first NUL and decodes the code units (BMP code units; the claims only
exercise the error path of the caller). -/
def utf16ToStringGo (s : List Nat) : String :=
  String.mk ((s.takeWhile fun c => c != 0).map Char.ofNat)

/-- `win32.GetWindowText` (win32.go lines 115-138) as a function of the
`GetWindowTextW` return value `ret` and the UTF-16 buffer contents: a zero
return — which the OS produces both on failure and for a window whose
title has length 0 — yields an error; otherwise the length is clamped to
the buffer and the text decoded. -/
def getWindowTextGo (ret : Nat) (buf : List Nat) : Except String String :=
  if ret = 0 then Except.error "failed to get window text"
  else
    let length := min ret buf.length
    Except.ok (utf16ToStringGo (buf.take length))

/-- `win32.RECT` (win32.go lines 38-43), fields as `Int` (`int32`). -/
structure Rect where
  left   : Int
  top    : Int
  right  : Int
  bottom : Int
deriving DecidableEq, Repr

/-- `Monitor.captureScreenshot` (monitor.go lines 292-320) as a function of
the probed window rectangle and the capture/encode outcome: a rect-query
failure or non-positive dimensions abort with an error (`none`);
otherwise the in-memory JPEG bytes are whatever the capture+encode
pipeline produced (`encoded`). -/
def captureScreenshotGo (rect : Option Rect) (encoded : Option (List Nat)) :
    Option (List Nat) :=
  match rect with
  | none => none
  | some r =>
    if r.right - r.left ≤ 0 ∨ r.bottom - r.top ≤ 0 then none else encoded

/-- `Monitor.calculateInputScore` (monitor.go lines 252-288), over exact
rationals. Arguments: the `isIdle` flag computed by the tick, the result
of the `GetLastInputInfo` probe (`none` = error), the sampler state's
`LastInputTick`, and the idle time observed by the inner `GetIdleTime`
call. Returns the score and the new `LastInputTick` state value. -/
def calculateInputScore (isIdle : Bool) (inputInfo : Option Nat)
    (lastInputTick : Nat) (idleTime : Nat) : ℚ × Nat :=
  if isIdle then (0, lastInputTick)
  else
    match inputInfo with
    | none => (0, lastInputTick)
    | some inputTick =>
      if inputTick = lastInputTick then (0, lastInputTick)
      else
        (if idleTime ≥ 5000 then 0 else 1 - (idleTime : ℚ) / 5000, inputTick)

/-- Per-tick probe observations: the results every win32 syscall of this
tick would return. `none` models the call failing. -/
structure TickEnv where
  isGameRunning   : Option Bool
  lastInputInfo   : Option Nat
  tickCount32     : Nat
  foregroundWindow : Option Nat
  windowTextRet   : Nat
  windowTextBuf   : List Nat
  threadProcessId : Option Nat
  windowRect      : Option Rect
  captureEncoded  : Option (List Nat)
deriving Repr

/-- The idle time the tick works with (monitor.go lines 136-141):
`win32.GetIdleTime`, with an error (failing `GetLastInputInfo`) collapsed
to `0`. -/
def tickIdleMs (env : TickEnv) : Nat :=
  match env.lastInputInfo with
  | none => 0
  | some li => getIdleTime li env.tickCount32

/-- The monitor's sampler state (`monitor.State`, monitor.go lines 47-54). -/
structure MState where
  lastWindowHandle   : Nat
  lastWindowTitle    : String
  lastProcessName    : String
  lastInputTick      : Nat
  lastTickTime       : Nat
  lastScreenshotTime : Nat
deriving DecidableEq, Repr

/-- The monitor's per-run counters touched by `tick`. -/
structure Counters where
  tickCount    : Nat
  skippedTicks : Nat
  idleTicks    : Nat
deriving DecidableEq, Repr

/-- The monitor configuration fields `tick` consults (`monitor.Config`),
durations in ms. The idle comparison uses the `uint32` conversion the
source performs. -/
structure MonConfig where
  idleThresholdMs      : Nat
  screenshotIntervalMs : Nat
deriving DecidableEq, Repr

/-- A probe (win32 / capture) call issued during a tick, for stating which
reads happen beyond the game gate. -/
inductive ProbeCall where
  | gameCheck
  | idleQuery
  | foregroundQuery
  | titleQuery
  | pidQuery
  | inputInfoQuery
  | idleQuery2
  | rectQuery
  | captureCall
deriving DecidableEq, Repr

/-- Everything one `Monitor.tick` produces: updated sampler state and
counters, the buffer afterwards, the admitted record (if any), whether the
buffer asked for a flush, whether a screenshot was captured, and the probe
calls issued in order. -/
structure TickResult where
  state           : MState
  counters        : Counters
  buf             : BufferState
  admitted        : Option LogEntry
  flushNeeded     : Bool
  screenshotTaken : Bool
  probes          : List ProbeCall
deriving Repr

/-- The body of `Monitor.tick` after the game gate and the foreground
window read succeeded (monitor.go lines 156-248): title/pid reads, score,
conditional screenshot, admission predicate, record construction and
buffer admission, state update. -/
def tickMain (cfg : MonConfig) (st : MState) (c : Counters) (buf : BufferState)
    (env : TickEnv) (now : Nat) (idleTime : Nat) (isIdle : Bool) (hwnd : Nat) :
    TickResult :=
  let windowTitle := match getWindowTextGo env.windowTextRet env.windowTextBuf with
    | Except.error _ => "Unknown"
    | Except.ok s => s
  let pid := env.threadProcessId.getD 0
  let processName := "PID_" ++ toString pid
  let scored := calculateInputScore isIdle env.lastInputInfo st.lastInputTick idleTime
  let inputScore := scored.1
  let st1 := { st with lastInputTick := scored.2 }
  let wantShot : Bool := !isIdle && decide (now - st.lastScreenshotTime ≥ cfg.screenshotIntervalMs)
  let shot := if wantShot then captureScreenshotGo env.windowRect env.captureEncoded else none
  let st2 := match shot with
    | some _ => { st1 with lastScreenshotTime := now }
    | none => st1
  let screenshotData := shot.getD []
  let scoreProbes := if isIdle then ([] : List ProbeCall) else
    match env.lastInputInfo with
    | none => [ProbeCall.inputInfoQuery]
    | some t =>
      if t = st.lastInputTick then [ProbeCall.inputInfoQuery]
      else [ProbeCall.inputInfoQuery, ProbeCall.idleQuery2]
  let shotProbes := if wantShot then
      match env.windowRect with
      | none => [ProbeCall.rectQuery]
      | some r =>
        if r.right - r.left ≤ 0 ∨ r.bottom - r.top ≤ 0 then [ProbeCall.rectQuery]
        else [ProbeCall.rectQuery, ProbeCall.captureCall]
    else ([] : List ProbeCall)
  let probes := [ProbeCall.gameCheck, ProbeCall.idleQuery, ProbeCall.foregroundQuery,
      ProbeCall.titleQuery, ProbeCall.pidQuery] ++ scoreProbes ++ shotProbes
  let windowChanged : Bool := st.lastWindowHandle != hwnd
  let titleChanged : Bool := st.lastWindowTitle != windowTitle
  let processChanged : Bool := st.lastProcessName != processName
  let timePassed : Bool := decide (now - st.lastTickTime > 5000)
  let shouldLog := windowChanged || titleChanged || processChanged || timePassed ||
      (!isIdle && decide (inputScore > 1/10)) || decide (screenshotData.length > 0)
  if shouldLog then
    let entry : LogEntry :=
      { sessionUUID := "default-session"
        unixTime := (now : Int)
        processName := processName
        windowTitle := windowTitle
        windowHandle := (hwnd : Int)
        inputIdleMs := (idleTime : Int)
        inputIntensity := inputScore
        screenshotPath := "RAM"
        screenshotData := screenshotData }
    let added := bufAdd buf entry
    { state := { st2 with
        lastWindowHandle := hwnd
        lastWindowTitle := windowTitle
        lastProcessName := processName
        lastTickTime := now }
      counters := c
      buf := added.1
      admitted := some entry
      flushNeeded := added.2
      screenshotTaken := shot.isSome
      probes := probes }
  else
    { state := st2
      counters := c
      buf := buf
      admitted := none
      flushNeeded := false
      screenshotTaken := shot.isSome
      probes := probes }

/-- `Monitor.tick` (monitor.go lines 124-248): counter increment, game
gate, idle computation, foreground-window read, then `tickMain`. -/
def tick (cfg : MonConfig) (st : MState) (c : Counters) (buf : BufferState)
    (env : TickEnv) (now : Nat) : TickResult :=
  let c1 : Counters := { c with tickCount := c.tickCount + 1 }
  if env.isGameRunning = some true then
    { state := st
      counters := { c1 with skippedTicks := c1.skippedTicks + 1 }
      buf := buf
      admitted := none
      flushNeeded := false
      screenshotTaken := false
      probes := [ProbeCall.gameCheck] }
  else
    let idleTime := tickIdleMs env
    let isIdle : Bool := decide (idleTime ≥ cfg.idleThresholdMs % U32)
    let c2 : Counters := if isIdle then { c1 with idleTicks := c1.idleTicks + 1 } else c1
    match env.foregroundWindow with
    | none =>
      { state := st
        counters := c2
        buf := buf
        admitted := none
        flushNeeded := false
        screenshotTaken := false
        probes := [ProbeCall.gameCheck, ProbeCall.idleQuery, ProbeCall.foregroundQuery] }
    | some hwnd => tickMain cfg st c2 buf env now idleTime isIdle hwnd

/-- One event as published to the remote stream by `RedisClient.PublishEvent`
(storage redis client; XADD with `MaxLen 5000`, `Approx true`) with the
field map built in `Monitor.flush` (monitor.go lines 356-370). The source
base64-encodes the screenshot bytes into `image_data`; the model carries
the raw bytes. -/
structure RedisEvent where
  stream : String
  maxLen : Nat
  approx : Bool
  fields : List (String × SqlValue)
deriving DecidableEq, Repr

/-- The payload `Monitor.flush` publishes for one entry in Redis mode. -/
def redisEventOf (e : LogEntry) : RedisEvent :=
  { stream := "mnemosyne:events"
    maxLen := 5000
    approx := true
    fields :=
      [("session_uuid", SqlValue.str e.sessionUUID),
       ("unix_time", SqlValue.int e.unixTime),
       ("process_name", SqlValue.str e.processName),
       ("window_title", SqlValue.str e.windowTitle),
       ("window_hwnd", SqlValue.int e.windowHandle),
       ("input_idle", SqlValue.int e.inputIdleMs),
       ("intensity", SqlValue.real e.inputIntensity),
       ("screenshot_path", SqlValue.str e.screenshotPath)]
      ++ (if e.screenshotData.length > 0
          then [("image_data", SqlValue.bytes e.screenshotData)] else []) }

/-- Result of one `Monitor.flush` invocation: the buffer, the committed
rows of the embedded database, the published remote events, and the two
remote-path counters. -/
structure MonFlushResult where
  buf          : BufferState
  dbRows       : List (List SqlValue)
  redisEvents  : List RedisEvent
  flushCount   : Nat
  eventsPushed : Nat
deriving Repr

/-- `Monitor.flush` (monitor.go lines 343-394). `hasRedis` is the static
sink selection (`m.redis != nil`). Redis mode: `GetAndClear`, per-record
publish with a per-record success oracle `pubOk`, failures logged but not
aborting; counters updated when anything was pushed; the embedded database
is not touched. SQLite mode: `Buffer.Flush`; `flushCount` incremented only
when that returned no error. -/
def monitorFlush (hasRedis : Bool) (buf : BufferState) (db : DbBehavior)
    (dbRows : List (List SqlValue)) (pubOk : Nat → Bool)
    (redisEvents : List RedisEvent) (flushCount eventsPushed : Nat)
    (now : Nat) : MonFlushResult :=
  if hasRedis then
    let taken := bufGetAndClear buf now
    if taken.2.isEmpty then
      { buf := taken.1, dbRows := dbRows, redisEvents := redisEvents,
        flushCount := flushCount, eventsPushed := eventsPushed }
    else
      let published := (taken.2.enum.filter fun p => pubOk p.1).map fun p => redisEventOf p.2
      let pushed := published.length
      { buf := taken.1
        dbRows := dbRows
        redisEvents := redisEvents ++ published
        flushCount := if pushed > 0 then flushCount + 1 else flushCount
        eventsPushed := eventsPushed + pushed }
  else
    let r := bufFlush buf db now
    { buf := r.buf
      dbRows := dbRows ++ r.committed
      redisEvents := redisEvents
      flushCount := if r.err then flushCount else flushCount + 1
      eventsPushed := eventsPushed }

/-- Result of `Monitor.shutdown`: the buffer, the committed rows of the
embedded database, and whether the final flush errored. -/
structure ShutdownResult where
  buf    : BufferState
  dbRows : List (List SqlValue)
  err    : Bool
deriving Repr

/-- `Monitor.shutdown` (monitor.go lines 397-417): unconditionally runs
`Buffer.ForceFlush` against the embedded database — the sink selection is
not consulted here, so the parameter is unused exactly as `m.redis` is
unused in the source; on success `Buffer.Stop` stops the timer. -/
def monitorShutdown (_hasRedis : Bool) (buf : BufferState) (db : DbBehavior)
    (dbRows : List (List SqlValue)) (now : Nat) : ShutdownResult :=
  let r := bufForceFlush buf db now
  if r.err then
    { buf := r.buf, dbRows := dbRows ++ r.committed, err := true }
  else
    { buf := { r.buf with timerRunning := false },
      dbRows := dbRows ++ r.committed, err := false }

/-- `n` successive `Add` calls of the same entry starting from a fresh
buffer; returns the buffer and the flag of the last `Add` (`false` when
`n = 0`). -/
def addReplicate (config : BufferConfig) (now : Nat) (e : LogEntry) :
    Nat → BufferState × Bool
  | 0 => (bufNew config now, false)
  | n + 1 => bufAdd (addReplicate config now e n).1 e

/-- One step of the spec's intended producer discipline: `Add`, and drain
immediately whenever the buffer suggested a flush. -/
def addDrainStep (now : Nat) (b : BufferState) (e : LogEntry) : BufferState :=
  let added := bufAdd b e
  if added.2 then (bufGetAndClear added.1 now).1 else added.1

/-- Run the disciplined producer over a list of entries from a fresh
buffer. -/
def addDrainRun (config : BufferConfig) (now : Nat) (es : List LogEntry) :
    BufferState :=
  es.foldl (addDrainStep now) (bufNew config now)

/-- Fixture: a buffer configuration with capacity 2. -/
def cfg2 : BufferConfig :=
  { capacity := 2, flushTimeoutMs := 300000, idleThresholdMs := 60000 }

/-- Fixture: a buffer configuration with capacity 3. -/
def cfg3 : BufferConfig :=
  { capacity := 3, flushTimeoutMs := 300000, idleThresholdMs := 60000 }

/-- Fixture: a concrete log entry. -/
def entry0 : LogEntry :=
  { sessionUUID := "s", unixTime := 1, processName := "PID_4"
    windowTitle := "A", windowHandle := 1, inputIdleMs := 7
    inputIntensity := 0, screenshotPath := "RAM", screenshotData := [] }

/-- Fixture: a SQL engine on which every call succeeds. -/
def dbOk : DbBehavior :=
  { beginErr := false, prepareErr := false, execErr := fun _ => false,
    commitErr := false }

/-- Fixture: a SQL engine on which every per-record insert fails. -/
def dbExecFail : DbBehavior :=
  { beginErr := false, prepareErr := false, execErr := fun _ => true,
    commitErr := false }

/-- Fixture: a buffer of capacity 2 holding one entry, timer started at 0. -/
def buf1 : BufferState :=
  { entries := [entry0], config := cfg2, lastFlush := 0,
    timerStart := 0, timerRunning := true }

/-- Fixture: monitor configuration with the source defaults (60 s idle
threshold, 1 s screenshot interval). -/
def mcfg0 : MonConfig := { idleThresholdMs := 60000, screenshotIntervalMs := 1000 }

/-- Fixture: an initial sampler state. -/
def mstate0 : MState :=
  { lastWindowHandle := 0, lastWindowTitle := "", lastProcessName := ""
    lastInputTick := 0, lastTickTime := 0, lastScreenshotTime := 0 }

/-- Fixture: zeroed counters. -/
def counters0 : Counters := { tickCount := 0, skippedTicks := 0, idleTicks := 0 }

/-- Fixture: a tick environment in which a full-screen game is detected. -/
def envGame : TickEnv :=
  { isGameRunning := some true, lastInputInfo := some 5, tickCount32 := 100
    foregroundWindow := some 1, windowTextRet := 1, windowTextBuf := [65]
    threadProcessId := some 9, windowRect := some ⟨0, 0, 10, 10⟩
    captureEncoded := some [1, 2] }

/-- Fixture: a tick environment with no game, an idle user (idle 70000 ms
≥ 60 s threshold), a focused window whose title read fails (`ret = 0`). -/
def envIdleNoTitle : TickEnv :=
  { isGameRunning := some false, lastInputInfo := some 100, tickCount32 := 70100
    foregroundWindow := some 1, windowTextRet := 0, windowTextBuf := []
    threadProcessId := some 9, windowRect := some ⟨0, 0, 10, 10⟩
    captureEncoded := some [1, 2] }

/-- Fixture: a buffer of capacity 3 holding two entries. -/
def buf2e : BufferState :=
  { entries := [entry0, entry0], config := cfg3, lastFlush := 0,
    timerStart := 0, timerRunning := true }

/-- Fixture: the record `tick` admits in the `envIdleNoTitle` environment
at time 1000 from the initial state. -/
def entryIdle0 : LogEntry :=
  { sessionUUID := "default-session", unixTime := 1000, processName := "PID_9"
    windowTitle := "Unknown", windowHandle := 1, inputIdleMs := 70000
    inputIntensity := 0, screenshotPath := "RAM", screenshotData := [] }

/-! ## Helper lemmas -/

theorem addReplicate_config (config : BufferConfig) (now : Nat) (e : LogEntry)
    (n : Nat) : ((addReplicate config now e n).1).config = config := by
  induction n with
  | zero => rfl
  | succ k ih => simp [addReplicate, bufAdd, ih]

theorem addReplicate_length (config : BufferConfig) (now : Nat) (e : LogEntry)
    (n : Nat) : ((addReplicate config now e n).1).entries.length = n := by
  induction n with
  | zero => rfl
  | succ k ih => simp [addReplicate, bufAdd, ih]

theorem addDrainStep_config (now : Nat) (b : BufferState) (e : LogEntry) :
    (addDrainStep now b e).config = b.config := by
  simp only [addDrainStep, bufAdd, bufGetAndClear]
  split
  · split <;> rfl
  · rfl

theorem addDrainStep_bound (now : Nat) (b : BufferState) (e : LogEntry)
    (h : b.entries.length = 0 ∨ b.entries.length < b.config.capacity) :
    (addDrainStep now b e).entries.length = 0 ∨
      (addDrainStep now b e).entries.length < b.config.capacity := by
  unfold addDrainStep bufAdd bufGetAndClear
  by_cases hcap : b.entries.length + 1 ≥ b.config.capacity
  · simp [hcap]
  · simp [hcap]
    rcases h with h0 | hlt <;> omega

theorem addDrain_foldl_inv (now : Nat) (config : BufferConfig)
    (es : List LogEntry) :
    ∀ b : BufferState, b.config = config →
      (b.entries.length = 0 ∨ b.entries.length < config.capacity) →
      ((es.foldl (addDrainStep now) b).config = config ∧
        ((es.foldl (addDrainStep now) b).entries.length = 0 ∨
          (es.foldl (addDrainStep now) b).entries.length < config.capacity)) := by
  induction es with
  | nil => intro b hc hlen; exact ⟨hc, hlen⟩
  | cons e es ih =>
    intro b hc hlen
    rw [List.foldl_cons]
    refine ih (addDrainStep now b e) ?_ ?_
    · rw [addDrainStep_config, hc]
    · have := addDrainStep_bound now b e (by rw [hc]; exact hlen)
      rwa [hc] at this

theorem calculateInputScore_idle (info : Option Nat) (lastTick idleTime : Nat) :
    calculateInputScore true info lastTick idleTime = (0, lastTick) := by
  simp [calculateInputScore]

/-! ## Claims -/

/-- Claim C1: the per-record bind of the non-final embedded-sink flush
(`Buffer.Flush`) does not realize the declared §6.3 field mapping: the
statement declares eight placeholder columns, but the code binds nine
values, passing `input_idle_ms` a second time in the position where the
declared column order expects `input_intensity`. Evaluated at a concrete
record, the bound argument list differs from the §6.3 row (which the
final-flush path `flushUnsafe` does produce). -/
theorem flush_binding_mismatch :
    (flushExecArgs entry0).length = 9 ∧
    rawEventsPlaceholderColumns.length = 8 ∧
    flushExecArgs entry0 ≠ flushUnsafeExecArgs entry0 ∧
    (flushExecArgs entry0)[6]? = some (SqlValue.int 7) ∧
    rawEventsPlaceholderColumns[6]? = some "input_intensity" ∧
    (flushUnsafeExecArgs entry0)[6]? = some (SqlValue.real 0) := by
  decide

/-- Claim C2, counterexample: a one-entry buffer flushed against an engine
whose insert fails. `Buffer.Flush` returns the error and rolls back, but
the drained records are not gone — the buffer still holds the entry,
contradicting the claim that the ring buffer retains no state. -/
theorem flush_error_keeps_records :
    (bufFlush buf1 dbExecFail 100).err = true ∧
    (bufFlush buf1 dbExecFail 100).rolledBack = true ∧
    (bufFlush buf1 dbExecFail 100).buf.entries = [entry0] ∧
    (bufFlush buf1 dbExecFail 100).buf.entries ≠ [] := by
  decide

/-- Claim C2, amended: on any error inside the transaction (begin,
prepare, per-record insert, commit), both embedded-sink drains — the
periodic `Buffer.Flush` and the shutdown `Buffer.ForceFlush` — return the
error, commit no rows, and retain exactly the drained records (nothing is
lost); the transaction is explicitly rolled back precisely on prepare and
per-record insert failures (a failed begin leaves no transaction, and a
failed commit is not explicitly rolled back by the source); the shutdown
drain additionally leaves the auto-flush timer stopped. -/
theorem flush_error_preserves_buffer (b : BufferState) (db : DbBehavior)
    (now : Nat) :
    ((bufFlush b db now).err = true →
      (bufFlush b db now).buf = b ∧
      (bufFlush b db now).committed = [] ∧
      ((bufFlush b db now).rolledBack = true ↔
        (db.beginErr = false ∧
          (db.prepareErr = true ∨ execAllOk db b.entries.length = false)))) ∧
    ((bufForceFlush b db now).err = true →
      (bufForceFlush b db now).buf = { b with timerRunning := false } ∧
      (bufForceFlush b db now).committed = [] ∧
      ((bufForceFlush b db now).rolledBack = true ↔
        (db.beginErr = false ∧
          (db.prepareErr = true ∨ execAllOk db b.entries.length = false)))) := by
  constructor
  · intro h
    unfold bufFlush at *
    split_ifs at h ⊢ <;> simp_all
  · intro h
    unfold bufForceFlush at *
    split_ifs at h ⊢ <;> simp_all

/-- Claim C2, witness: the amended statement at the concrete failing
drain, for both the periodic flush and the shutdown force flush. -/
theorem flush_error_preserves_buffer_witness :
    (bufFlush buf1 dbExecFail 100).err = true ∧
    (bufForceFlush buf1 dbExecFail 100).err = true ∧
    ((bufFlush buf1 dbExecFail 100).buf = buf1 ∧
      (bufFlush buf1 dbExecFail 100).committed = [] ∧
      ((bufFlush buf1 dbExecFail 100).rolledBack = true ↔
        (dbExecFail.beginErr = false ∧
          (dbExecFail.prepareErr = true ∨
            execAllOk dbExecFail buf1.entries.length = false)))) ∧
    ((bufForceFlush buf1 dbExecFail 100).buf = { buf1 with timerRunning := false } ∧
      (bufForceFlush buf1 dbExecFail 100).committed = [] ∧
      ((bufForceFlush buf1 dbExecFail 100).rolledBack = true ↔
        (dbExecFail.beginErr = false ∧
          (dbExecFail.prepareErr = true ∨
            execAllOk dbExecFail buf1.entries.length = false)))) :=
  ⟨by decide, by decide,
    (flush_error_preserves_buffer buf1 dbExecFail 100).1 (by decide),
    (flush_error_preserves_buffer buf1 dbExecFail 100).2 (by decide)⟩

/-- Claim C3, counterexample: with the remote sink selected
(`hasRedis = true`) and one record left in the buffer, the shutdown drain
commits a row into the embedded `raw_events` table — the embedded database
does receive event rows, contradicting the claim that the embedded-sink
write path is disabled for the whole run including the final drain. -/
theorem shutdown_writes_db_in_redis_mode :
    (monitorShutdown true buf1 dbOk [] 5).dbRows = [flushUnsafeExecArgs entry0] ∧
    (monitorShutdown true buf1 dbOk [] 5).dbRows ≠ [] := by
  decide

/-- Claim C3, amended: steady-state flushes in remote mode write only to
the remote stream — `Monitor.flush` with the remote sink selected never
changes the embedded database's rows — but the final drain at shutdown
ignores the sink selection entirely (`Monitor.shutdown` behaves
identically with and without a remote sink), force-flushing any remaining
records into the embedded database. -/
theorem redis_mode_flush_and_shutdown :
    (∀ (buf : BufferState) (db : DbBehavior) (dbRows : List (List SqlValue))
       (pubOk : Nat → Bool) (events : List RedisEvent) (fc ep now : Nat),
        (monitorFlush true buf db dbRows pubOk events fc ep now).dbRows = dbRows) ∧
    (∀ (hr : Bool) (buf : BufferState) (db : DbBehavior)
       (dbRows : List (List SqlValue)) (now : Nat),
        monitorShutdown hr buf db dbRows now =
          monitorShutdown false buf db dbRows now) := by
  constructor
  · intro buf db dbRows pubOk events fc ep now
    simp only [monitorFlush, if_true]
    split <;> rfl
  · intro hr buf db dbRows now
    rfl

/-- Claim C4: the wrap-around branch of `win32.GetIdleTime` adds
`0xFFFFFFFF` (2^32 - 1) instead of 2^32, so when the tick counter has
wrapped the computed idle time is one millisecond short of the correct
modulo-2^32 elapsed time. At `lastInput = 2^32 - 1`, `current = 0` the
correct elapsed time is 1 ms but the code computes 0. -/
theorem idle_wrap_off_by_one :
    getIdleTime 4294967295 0 = 0 ∧
    correctIdleTime 4294967295 0 = 1 ∧
    getIdleTime 4294967295 0 ≠ correctIdleTime 4294967295 0 := by
  decide

/-- Claim C5, counterexample: `Buffer.Add` appends unconditionally, so
three successive adds against capacity 2 leave three stored records — the
buffer does not hold at most `Capacity` records in every reachable state. -/
theorem add_exceeds_capacity :
    ((addReplicate cfg2 0 entry0 3).1).entries.length = 3 ∧
    ¬ ((addReplicate cfg2 0 entry0 3).1).entries.length ≤ cfg2.capacity := by
  decide

/-- Claim C5, amended: the buffer itself does not enforce the capacity
bound (`Add` always appends and only signals); the bound holds under the
intended producer discipline in which every `Add` that returns the flush
suggestion is immediately followed by a drain: running that discipline
from a fresh buffer, the stored count never exceeds the configured
capacity. -/
theorem disciplined_add_bounded (config : BufferConfig) (now : Nat)
    (es : List LogEntry) :
    (addDrainRun config now es).entries.length ≤ config.capacity := by
  have h := addDrain_foldl_inv now config es (bufNew config now) rfl (Or.inl rfl)
  unfold addDrainRun
  rcases h.2 with h0 | hlt
  · omega
  · omega

/-- Claim C6: `Buffer.Add` returns the flush suggestion exactly when the
post-append count reaches or exceeds the capacity (the high-water mark H):
for any buffer the returned flag is `true` iff `count + 1 ≥ H`, and from a
fresh buffer the H-th consecutive add yields `true` while the (H-1)-th
does not. -/
theorem add_capacity_trigger (config : BufferConfig) (now : Nat)
    (e : LogEntry) (b : BufferState) (h : 1 ≤ config.capacity) :
    ((bufAdd b e).2 = true ↔ b.entries.length + 1 ≥ b.config.capacity) ∧
    (addReplicate config now e config.capacity).2 = true ∧
    (addReplicate config now e (config.capacity - 1)).2 = false := by
  obtain ⟨m, hm⟩ : ∃ m, config.capacity = m + 1 := ⟨config.capacity - 1, by omega⟩
  refine ⟨?_, ?_, ?_⟩
  · simp [bufAdd]
  · rw [hm]
    show (bufAdd (addReplicate config now e m).1 e).2 = true
    simp [bufAdd, addReplicate_length, addReplicate_config, hm]
  · rw [hm]
    simp only [Nat.add_sub_cancel]
    match m with
    | 0 => rfl
    | k + 1 =>
      show (bufAdd (addReplicate config now e k).1 e).2 = false
      simp [bufAdd, addReplicate_length, addReplicate_config, hm]

/-- Claim C6, witness: capacity 3; the third consecutive add suggests a
flush, the second does not. -/
theorem add_capacity_trigger_witness :
    1 ≤ cfg3.capacity ∧
    (((bufAdd (bufNew cfg3 0) entry0).2 = true ↔
        (bufNew cfg3 0).entries.length + 1 ≥ (bufNew cfg3 0).config.capacity) ∧
      (addReplicate cfg3 0 entry0 cfg3.capacity).2 = true ∧
      (addReplicate cfg3 0 entry0 (cfg3.capacity - 1)).2 = false) :=
  ⟨by decide, add_capacity_trigger cfg3 0 entry0 (bufNew cfg3 0) (by decide)⟩

/-- Claim C7: when the game predicate reports a running full-screen game,
the tick increments only `tickCount` and `skippedTicks` and returns: the
sampler state and buffer are untouched, nothing is admitted, no screenshot
is taken, and the notification-state query is the only probe issued. -/
theorem game_gate_skips_tick (cfg : MonConfig) (st : MState) (c : Counters)
    (buf : BufferState) (env : TickEnv) (now : Nat)
    (h : env.isGameRunning = some true) :
    tick cfg st c buf env now =
      { state := st
        counters := { tickCount := c.tickCount + 1
                      skippedTicks := c.skippedTicks + 1
                      idleTicks := c.idleTicks }
        buf := buf
        admitted := none
        flushNeeded := false
        screenshotTaken := false
        probes := [ProbeCall.gameCheck] } := by
  simp [tick, h]

/-- Claim C7, witness: the gated tick at a concrete game environment. -/
theorem game_gate_skips_tick_witness :
    envGame.isGameRunning = some true ∧
    tick mcfg0 mstate0 counters0 (bufNew cfg2 0) envGame 1000 =
      { state := mstate0
        counters := { tickCount := 1, skippedTicks := 1, idleTicks := 0 }
        buf := bufNew cfg2 0
        admitted := none
        flushNeeded := false
        screenshotTaken := false
        probes := [ProbeCall.gameCheck] } :=
  ⟨rfl, game_gate_skips_tick mcfg0 mstate0 counters0 (bufNew cfg2 0) envGame 1000 rfl⟩

/-- The non-idle non-trivial branch of the score equals the clamped linear
ramp of the spec. -/
theorem score_formula (idle2 : Nat) :
    (if idle2 ≥ 5000 then (0 : ℚ) else 1 - (idle2 : ℚ) / 5000) =
      max 0 (1 - (idle2 : ℚ) / 5000) := by
  split
  · rename_i h
    have h5 : (5000 : ℚ) ≤ (idle2 : ℚ) := by exact_mod_cast h
    have h1 : (1 : ℚ) ≤ (idle2 : ℚ) / 5000 := by
      rw [le_div_iff (by norm_num)]; linarith
    symm
    apply max_eq_left
    linarith
  · rename_i h
    have h5 : (idle2 : ℚ) ≤ 5000 := by
      have : idle2 ≤ 5000 := by omega
      exact_mod_cast this
    have h1 : (idle2 : ℚ) / 5000 ≤ 1 := by
      rw [div_le_one (by norm_num)]; exact h5
    symm
    apply max_eq_right
    linarith

/-- The clamped ramp lies in `[0, 1]`. -/
theorem score_ramp_bounds (idle2 : Nat) :
    0 ≤ max (0 : ℚ) (1 - (idle2 : ℚ) / 5000) ∧
      max (0 : ℚ) (1 - (idle2 : ℚ) / 5000) ≤ 1 := by
  constructor
  · exact le_max_left 0 _
  · apply max_le
    · norm_num
    · have : (0 : ℚ) ≤ (idle2 : ℚ) / 5000 := by positivity
      linarith

/-- Claim C8: the input-intensity score follows the spec's definition —
the score is 0 on an idle tick, 0 when the last-input tick probe fails or
is unchanged since the previous tick, and otherwise equals
`max 0 (1 - idle_ms/5000)`; it always lies in `[0, 1]`; and any record a
tick admits while the computed idle time is at or above the idle
threshold carries intensity 0. -/
theorem input_score_spec :
    (∀ (isIdle : Bool) (info : Option Nat) (lastTick idle2 : Nat),
      0 ≤ (calculateInputScore isIdle info lastTick idle2).1 ∧
      (calculateInputScore isIdle info lastTick idle2).1 ≤ 1 ∧
      (isIdle = true → (calculateInputScore isIdle info lastTick idle2).1 = 0) ∧
      (info = none → (calculateInputScore isIdle info lastTick idle2).1 = 0) ∧
      (info = some lastTick → (calculateInputScore isIdle info lastTick idle2).1 = 0) ∧
      (isIdle = false → ∀ t, info = some t → t ≠ lastTick →
        (calculateInputScore isIdle info lastTick idle2).1 =
          max 0 (1 - (idle2 : ℚ) / 5000))) ∧
    (∀ (cfg : MonConfig) (st : MState) (c : Counters) (buf : BufferState)
       (env : TickEnv) (now : Nat) (e : LogEntry),
      tickIdleMs env ≥ cfg.idleThresholdMs % U32 →
      (tick cfg st c buf env now).admitted = some e →
      e.inputIntensity = 0) := by
  constructor
  · intro isIdle info lastTick idle2
    cases isIdle with
    | true =>
      rw [calculateInputScore_idle]
      exact ⟨le_refl 0, by norm_num, fun _ => rfl, fun _ => rfl, fun _ => rfl,
        fun h => absurd h (by simp)⟩
    | false =>
      cases info with
      | none =>
        have hv : (calculateInputScore false none lastTick idle2).1 = 0 := rfl
        rw [hv]
        refine ⟨le_refl 0, by norm_num, ?_, fun _ => rfl, ?_, ?_⟩
        · intro h; exact absurd h (by simp)
        · intro h; exact absurd h (by simp)
        · intro _ t ht; exact absurd ht (by simp)
      | some t =>
        by_cases ht : t = lastTick
        · subst ht
          refine ⟨?_, ?_, ?_, ?_, ?_, ?_⟩ <;>
            simp [calculateInputScore]
        · have hval : (calculateInputScore false (some t) lastTick idle2).1 =
              max 0 (1 - (idle2 : ℚ) / 5000) := by
            simp only [calculateInputScore, Bool.false_eq_true, if_false, if_neg ht]
            exact score_formula idle2
          rw [hval]
          refine ⟨(score_ramp_bounds idle2).1, (score_ramp_bounds idle2).2, ?_, ?_, ?_, ?_⟩
          · intro h; exact absurd h (by simp)
          · intro h; exact absurd h (by simp)
          · intro h
            rw [Option.some.injEq] at h
            exact absurd h ht
          · intro _ t2 h2 _
            rfl
  · intro cfg st c buf env now e hidle hadm
    by_cases hg : env.isGameRunning = some true
    · simp [tick, hg] at hadm
    · have hb : decide (tickIdleMs env ≥ cfg.idleThresholdMs % U32) = true :=
        decide_eq_true hidle
      simp only [tick] at hadm
      rw [if_neg hg] at hadm
      cases hfw : env.foregroundWindow with
      | none => rw [hfw] at hadm; simp at hadm
      | some hwnd =>
        rw [hfw] at hadm
        rw [hb] at hadm
        simp only [tickMain, calculateInputScore_idle, Bool.not_true,
          Bool.false_and, Bool.false_eq_true, if_false] at hadm
        split_ifs at hadm <;>
          first
            | (simp only [Option.some.injEq] at hadm; subst hadm; rfl)
            | simp at hadm

/-- Claim C8, witness: an idle tick (70 s idle against a 60 s threshold)
that still admits a record (window change) carries intensity 0. -/
theorem input_score_spec_witness :
    tickIdleMs envIdleNoTitle ≥ mcfg0.idleThresholdMs % U32 ∧
    (tick mcfg0 mstate0 counters0 (bufNew cfg2 0) envIdleNoTitle 1000).admitted =
      some entryIdle0 ∧
    entryIdle0.inputIntensity = 0 :=
  ⟨by decide, by decide,
    input_score_spec.2 mcfg0 mstate0 counters0 (bufNew cfg2 0) envIdleNoTitle 1000
      entryIdle0 (by decide) (by decide)⟩

/-- Claim C9, counterexample: a drain by the transactional flush that
completes with an error (failing insert) leaves the buffer length at 2 and
the auto-flush timer untouched, contradicting the claim that after every
drain the length is 0 and the timer restarts from the drain time. -/
theorem failed_drain_keeps_length :
    (bufFlush buf2e dbExecFail 100).err = true ∧
    bufLen (bufFlush buf2e dbExecFail 100).buf = 2 ∧
    ¬ (bufLen (bufFlush buf2e dbExecFail 100).buf = 0 ∧
        (bufFlush buf2e dbExecFail 100).buf.timerStart = 100) := by
  decide

/-- Claim C9, amended: after a drain of a non-empty buffer that completes
without error — the transactional flush on the embedded path or the
atomic take on the remote path — the buffer length is 0, `lastFlush` is
the drain time, and the auto-flush timer is restarted from the drain time;
a failed flush leaves the entries in place, and an empty-buffer drain is a
no-op that does not touch the timer. -/
theorem drain_success_clears_and_resets (b : BufferState) (db : DbBehavior)
    (now : Nat) (hne : b.entries ≠ []) :
    ((bufFlush b db now).err = false →
      bufLen (bufFlush b db now).buf = 0 ∧
      (bufFlush b db now).buf.timerStart = now ∧
      (bufFlush b db now).buf.timerRunning = true ∧
      (bufFlush b db now).buf.lastFlush = now) ∧
    (bufLen (bufGetAndClear b now).1 = 0 ∧
      (bufGetAndClear b now).1.timerStart = now ∧
      (bufGetAndClear b now).1.timerRunning = true ∧
      (bufGetAndClear b now).1.lastFlush = now) := by
  have hne2 : b.entries.isEmpty = false := by
    simpa [List.isEmpty_iff] using hne
  constructor
  · intro hok
    unfold bufFlush at hok ⊢
    rw [hne2] at hok ⊢
    simp only [Bool.false_eq_true, if_false] at hok ⊢
    split_ifs at hok ⊢ <;> simp_all [bufLen]
  · unfold bufGetAndClear
    rw [hne2]
    simp [bufLen]

/-- Claim C9, witness: the amended statement at a concrete one-entry
buffer over a fully succeeding engine. -/
theorem drain_success_clears_and_resets_witness :
    buf1.entries ≠ [] ∧
    (((bufFlush buf1 dbOk 42).err = false →
        bufLen (bufFlush buf1 dbOk 42).buf = 0 ∧
        (bufFlush buf1 dbOk 42).buf.timerStart = 42 ∧
        (bufFlush buf1 dbOk 42).buf.timerRunning = true ∧
        (bufFlush buf1 dbOk 42).buf.lastFlush = 42) ∧
      (bufLen (bufGetAndClear buf1 42).1 = 0 ∧
        (bufGetAndClear buf1 42).1.timerStart = 42 ∧
        (bufGetAndClear buf1 42).1.timerRunning = true ∧
        (bufGetAndClear buf1 42).1.lastFlush = 42)) :=
  ⟨by decide, drain_success_clears_and_resets buf1 dbOk 42 (by decide)⟩

/-- Claim C10: a window-title read that the OS answers with length 0 —
which includes a genuinely empty title — returns an error, never the
empty string; the result does not depend on the buffer contents at all
(an empty title is indistinguishable from a probe failure); and the
sampler records the placeholder title Unknown in any record admitted by
such a tick. -/
theorem empty_title_reads_as_error :
    (∀ buf : List Nat,
      getWindowTextGo 0 buf = Except.error "failed to get window text") ∧
    (∀ buf buf2 : List Nat, getWindowTextGo 0 buf = getWindowTextGo 0 buf2) ∧
    (∀ (cfg : MonConfig) (st : MState) (c : Counters) (b : BufferState)
       (env : TickEnv) (now : Nat) (e : LogEntry),
      env.windowTextRet = 0 →
      (tick cfg st c b env now).admitted = some e →
      e.windowTitle = "Unknown") := by
  refine ⟨fun buf => rfl, fun buf buf2 => rfl, ?_⟩
  intro cfg st c b env now e hret hadm
  by_cases hg : env.isGameRunning = some true
  · simp [tick, hg] at hadm
  · simp only [tick] at hadm
    rw [if_neg hg] at hadm
    cases hfw : env.foregroundWindow with
    | none => rw [hfw] at hadm; simp at hadm
    | some hwnd =>
      rw [hfw] at hadm
      simp only [tickMain] at hadm
      rw [hret] at hadm
      simp only [getWindowTextGo, reduceIte] at hadm
      split_ifs at hadm <;>
        first
          | (simp only [Option.some.injEq] at hadm; subst hadm; rfl)
          | simp at hadm

/-- Claim C10, witness: a tick whose title read returns length 0 admits a
record titled Unknown. -/
theorem empty_title_reads_as_error_witness :
    envIdleNoTitle.windowTextRet = 0 ∧
    (tick mcfg0 mstate0 counters0 (bufNew cfg2 0) envIdleNoTitle 1000).admitted =
      some entryIdle0 ∧
    entryIdle0.windowTitle = "Unknown" :=
  ⟨rfl, by decide,
    empty_title_reads_as_error.2.2 mcfg0 mstate0 counters0 (bufNew cfg2 0)
      envIdleNoTitle 1000 entryIdle0 rfl (by decide)⟩

end Mnemosyne
